import Mathlib

/-!
Verification of the article-acquisition pipeline of the `useWikiArticles`
hook (final version, `src/unnamed/part_000`).

The TypeScript source is shallowly embedded: the pure helpers
(`deduplicateArticles`, `mergeUniqueArticles`, the acceptance filters, the
film-keyword heuristic, `getWeightedFilmYear`) become Lean functions over
the same data, and the effectful orchestrator (`fetchArticles`,
`fetchRandomFilmsWithFilter`, `getMoreArticles`) becomes an explicit
state-transition function over the closure state of the hook
(`articles`, `buffer`, `loading`), parametrised by the network responses
and recording the network requests it issues in a trace.
-/

namespace WikiPlot

/-- JavaScript `String.prototype.includes`: substring containment test,
here on lists of characters: `listHasPrefix s p` is `p` being an initial
segment of `s`. -/
def listHasPrefix : List Char → List Char → Bool
  | _, [] => true
  | [], _ :: _ => false
  | c :: cs, p :: ps => (c == p) && listHasPrefix cs ps

/-- Substring occurrence anywhere in the list. -/
def listContainsSub (s pat : List Char) : Bool :=
  match s with
  | [] => pat.isEmpty
  | _ :: cs => listHasPrefix s pat || listContainsSub cs pat

/-- JS `toLowerCase`, character by character (every keyword compared
against is plain ASCII). -/
def strToLower (s : String) : String :=
  String.mk (s.data.map Char.toLower)

/-- JS `s.toLowerCase().includes(pat)` on strings (`pat` is already
lower-case in every use in the source). -/
def strIncludesLower (s pat : String) : Bool :=
  listContainsSub (strToLower s).data pat.data

/-- JS optional chaining `s?.toLowerCase().includes(pat)`:
`undefined` is falsy. -/
def optIncludesLower (s : Option String) (pat : String) : Bool :=
  match s with
  | some str => strIncludesLower str pat
  | none => false

/-- The empty string (named, for use as the vacuous default of the
non-null assertions below). -/
def emptyStr : String := ""

/-- JS truthiness of an optional string field: present and non-empty. -/
def strTruthy : Option String → Bool
  | some s => !(s == "")
  | none => false

/-- `interface WikiCategoryMember` of the source. -/
structure WikiCategoryMember where
  pageid : Nat
  ns : Int
  title : String
deriving DecidableEq

/-- `interface WikiThumbnail` of the source. -/
structure WikiThumbnail where
  source : String
  width : Nat
  height : Nat
deriving DecidableEq

/-- `interface WikiCategory` of the source. -/
structure WikiCategory where
  ns : Int
  title : String
deriving DecidableEq

/-- `interface WikiPage` of the source; optional fields of the API
response become `Option`. `varianttitles : Record<string, string>` is an
association list. -/
structure WikiPage where
  pageid : Nat
  ns : Int
  title : String
  extract : Option String
  thumbnail : Option WikiThumbnail
  canonicalurl : Option String
  varianttitles : Option (List (String × String))
  categories : Option (List WikiCategory)
deriving DecidableEq

/-- `interface WikiArticle` of `src/components/WikiCard.tsx`
(`part_002`): the accepted article record. -/
structure WikiArticle where
  title : String
  displaytitle : String
  extract : String
  pageid : String
  url : String
  thumbnail : WikiThumbnail
  categories : Option (List String)
deriving DecidableEq

/-- `deduplicateArticles` keeps the first occurrence of every `pageid`;
the JS `Set` named `seen` becomes the accumulator list of ids already
emitted. -/
def dedupAux (seen : List String) : List WikiArticle → List WikiArticle
  | [] => []
  | a :: rest =>
      if seen.contains a.pageid then dedupAux seen rest
      else a :: dedupAux (a.pageid :: seen) rest

/-- `deduplicateArticles` of the source: filter with a growing `seen`
set of pageids. -/
def deduplicateArticles (articles : List WikiArticle) : List WikiArticle :=
  dedupAux [] articles

/-- `mergeUniqueArticles` of the source: keep `existing`, append the
elements of `newArticles` whose pageid does not occur in `existing`. -/
def mergeUniqueArticles (existing newArticles : List WikiArticle) : List WikiArticle :=
  let existingIds := existing.map (fun article => article.pageid)
  let uniqueNewArticles :=
    newArticles.filter (fun article => !(existingIds.contains article.pageid))
  existing ++ uniqueNewArticles

/-- Keyword constants of the film heuristic. -/
def kwFilm : String := "film"

def kwMovie : String := "movie"

def kwCinema : String := "cinema"

def kwDirectedBy : String := "directed by"

def kwStarring : String := "starring"

/-- The acceptance filter shared by the primary detail query
(`fetchArticles`, lines 296-304) and the fallback query: the page has a
thumbnail with a truthy `source`, a truthy `canonicalurl`, a truthy
`extract`, and `extract.length > 100`. -/
def acceptPage (page : WikiPage) : Bool :=
  (match page.thumbnail with
   | some t => !(t.source == "")
   | none => false)
  && strTruthy page.canonicalurl
  && strTruthy page.extract
  && (100 < (page.extract.getD emptyStr).length)

/-- `page.varianttitles?.[currentLanguage.id] || page.title`: the variant
title for the active language id, falling back to the canonical title when
the record is absent, the key missing, or the value falsy (empty). -/
def displayTitleOf (langId : String) (page : WikiPage) : String :=
  match page.varianttitles with
  | some vts =>
      match vts.find? (fun p => p.1 == langId) with
      | some pr => if pr.2 == "" then page.title else pr.2
      | none => page.title
  | none => page.title

/-- The article record built by `fetchArticles` from an accepted detail
page (the `getD` defaults model the non-null assertions `!`, which the
filter guarantees are never exercised). -/
def pageToArticle (langId : String) (page : WikiPage) : WikiArticle :=
  { title := page.title
    displaytitle := displayTitleOf langId page
    extract := page.extract.getD emptyStr
    pageid := toString page.pageid
    thumbnail := page.thumbnail.getD { source := emptyStr, width := 0, height := 0 }
    url := page.canonicalurl.getD emptyStr
    categories := none }

/-- The article record built by `fetchRandomFilmsWithFilter` from an
accepted page: same fields plus the category-title list
(`page.categories?.map(cat => cat.title) || []`). -/
def pageToFilmArticle (langId : String) (page : WikiPage) : WikiArticle :=
  { pageToArticle langId page with
    categories := some ((page.categories.getD []).map (fun cat => cat.title)) }

/-- The `isFilm` heuristic of `fetchRandomFilmsWithFilter` (lines
167-178): some category title contains "film", "movie" or "cinema"; or the
page title contains "film"; or the extract contains "film", "movie",
"directed by" or "starring" — all case-insensitively. -/
def isFilmPage (page : WikiPage) : Bool :=
  (match page.categories with
   | some cats =>
       cats.any (fun cat =>
         strIncludesLower cat.title kwFilm
         || strIncludesLower cat.title kwMovie
         || strIncludesLower cat.title kwCinema)
   | none => false)
  || strIncludesLower page.title kwFilm
  || optIncludesLower page.extract kwFilm
  || optIncludesLower page.extract kwMovie
  || optIncludesLower page.extract kwDirectedBy
  || optIncludesLower page.extract kwStarring

/-- The whole filter predicate of the fallback: the film heuristic together
with the acceptance filter. -/
def fallbackAccept (page : WikiPage) : Bool :=
  isFilmPage page && acceptPage page

/-- `uniqueNewArticles` of the primary path: filter the detail-response
pages, build article records, deduplicate. -/
def primaryBatch (langId : String) (pages : List WikiPage) : List WikiArticle :=
  deduplicateArticles ((pages.filter acceptPage).map (pageToArticle langId))

/-- `uniqueFilmArticles` of the fallback path: filter by heuristic and
acceptance, build records, truncate to at most 20 (`slice(0, 20)`),
deduplicate. -/
def fallbackBatch (langId : String) (pages : List WikiPage) : List WikiArticle :=
  deduplicateArticles
    (((pages.filter fallbackAccept).map (pageToFilmArticle langId)).take 20)

/-- The closure state of the hook: the visible list, the read-ahead buffer and
the loading flag (`useState` triple of the source). There is no further
state — in particular no per-year cache and no rate-limit timestamp. -/
structure HookState where
  articles : List WikiArticle
  buffer : List WikiArticle
  loading : Bool
deriving DecidableEq

/-- Network environment of one `fetchArticles` run: the responses the
model does not itself compute. `yearFor i` is the categorymembers result
of the i-th of the five year queries (the empty list also models a query
whose error was caught inside `fetchFilmsForYear`); `detailOk` and
`fallbackOk` model `response.ok` plus JSON decoding of the detail and
fallback requests; `detailPages` and `fallbackPages` are the
`Object.values(data.query.pages)` of those responses. -/
structure FetchEnv where
  langId : String
  yearFor : Fin 5 → List WikiCategoryMember
  detailOk : Bool
  detailPages : List WikiPage
  fallbackOk : Bool
  fallbackPages : List WikiPage

/-- Network requests and scheduling effects recorded during one run. -/
structure FetchLog where
  categoryQueries : Nat
  detailQueries : Nat
  fallbackQueries : Nat
  fallbackCalls : Nat
  scheduledRefill : Bool
deriving DecidableEq

/-- The empty trace of a run that touched the network not at all. -/
def emptyLog : FetchLog :=
  { categoryQueries := 0, detailQueries := 0, fallbackQueries := 0
    fallbackCalls := 0, scheduledRefill := false }

/-- Total network attempts of a run. -/
def networkAttempts (t : FetchLog) : Nat :=
  t.categoryQueries + t.detailQueries + t.fallbackQueries

/-- `fetchRandomFilmsWithFilter(forBuffer)` as a state transition. It
issues the random-generator query; on failure it re-throws (the `Bool`
in the result is `true` when the call threw, which the catch block of the caller
block swallows). On success it merges the deduplicated fallback batch
into the buffer (`forBuffer`) or the visible list (otherwise), and in
the latter case schedules a buffer refill when the batch is non-empty. -/
def fetchRandomFilmsWithFilter (forBuffer : Bool) (env : FetchEnv)
    (s : HookState) : HookState × FetchLog × Bool :=
  if env.fallbackOk then
    let uniqueFilmArticles := fallbackBatch env.langId env.fallbackPages
    if forBuffer then
      let buf := deduplicateArticles (mergeUniqueArticles s.buffer uniqueFilmArticles)
      ({ s with buffer := buf }, { emptyLog with fallbackQueries := 1 }, false)
    else
      let arts := deduplicateArticles (mergeUniqueArticles s.articles uniqueFilmArticles)
      ({ s with articles := arts },
       { emptyLog with fallbackQueries := 1, scheduledRefill := uniqueFilmArticles.length > 0 },
       false)
  else
    (s, { emptyLog with fallbackQueries := 1 }, true)

/-- `fetchArticles(forBuffer)` as a state transition: the loading guard,
the five concurrent year queries, the empty-candidate check, the detail
query with its acceptance filter, merge into list or buffer, fallback on
any failure, and the final clearing of the loading flag for
user-initiated calls. -/
def fetchArticles (forBuffer : Bool) (env : FetchEnv)
    (s : HookState) : HookState × FetchLog :=
  if s.loading && !forBuffer then (s, emptyLog)
  else
    let s1 := if !forBuffer then { s with loading := true } else s
    let allFilms := ((List.finRange 5).map env.yearFor).flatten
    let r :=
      if allFilms.length == 0 then
        -- throw "No films found in year-based search" → fallback
        let fb := fetchRandomFilmsWithFilter forBuffer env s1
        (fb.1, { fb.2.1 with categoryQueries := 5, fallbackCalls := 1 })
      else if !env.detailOk then
        -- detail query failed → fallback
        let fb := fetchRandomFilmsWithFilter forBuffer env s1
        (fb.1, { fb.2.1 with categoryQueries := 5, detailQueries := 1, fallbackCalls := 1 })
      else
        let uniqueNewArticles := primaryBatch env.langId env.detailPages
        if forBuffer then
          let buf := deduplicateArticles (mergeUniqueArticles s1.buffer uniqueNewArticles)
          ({ s1 with buffer := buf },
           { emptyLog with categoryQueries := 5, detailQueries := 1 })
        else
          let arts := deduplicateArticles (mergeUniqueArticles s1.articles uniqueNewArticles)
          let log0 := { emptyLog with categoryQueries := 5, detailQueries := 1 }
          ({ s1 with articles := arts },
           { log0 with scheduledRefill := uniqueNewArticles.length > 0 })
    (if !forBuffer then { r.1 with loading := false } else r.1, r.2)

/-- `getMoreArticles()`: promote the buffer when non-empty (and schedule
a refill), otherwise run a user-initiated fetch. -/
def getMoreArticles (env : FetchEnv) (s : HookState) : HookState × FetchLog :=
  if s.buffer.length > 0 then
    let arts := deduplicateArticles (mergeUniqueArticles s.articles s.buffer)
    ({ s with articles := arts, buffer := [] },
     { emptyLog with scheduledRefill := true })
  else
    fetchArticles false env s

/-! ### Further definitions used by the claims -/

/-- The acceptance property of an article record: a thumbnail with a
source URL, a canonical URL, and an extract longer than the 100-character
threshold. -/
def acceptedArticle (a : WikiArticle) : Prop :=
  a.thumbnail.source ≠ emptyStr ∧ a.url ≠ emptyStr ∧ 100 < a.extract.length

/-- `getWeightedFilmYear`, with the uniform draw `Math.random()` made an
explicit real argument `r`:
`Math.floor(currentYear - Math.pow(random, 0.5) * (currentYear - startYear))`
with `startYear = 1929` and `Math.pow(r, 0.5) = Real.sqrt r` on `[0, 1)`. -/
noncomputable def getWeightedFilmYear (currentYear : ℕ) (r : ℝ) : ℤ :=
  ⌊(currentYear : ℝ) - Real.sqrt r * ((currentYear : ℝ) - 1929)⌋

/-- `fetchFilmsForYear year`: always issues one categorymembers request
(`cmtitle = Category:{year} films`); `resp` is the network response,
`none` modelling a network/HTTP error that the internal catch turns into
`[]`. The second component counts the category queries the call issued. -/
def fetchFilmsForYearModel (_year : Nat)
    (resp : Option (List WikiCategoryMember)) : List WikiCategoryMember × Nat :=
  (match resp with
   | some ms => ms
   | none => [], 1)

/-- A session of successive `fetchFilmsForYear` calls (`resp` gives the
response of the network per year). No state is threaded between the calls
because the hook keeps none for this query — queries accumulate. -/
def runFilmsForYears (resp : Nat → Option (List WikiCategoryMember)) :
    List Nat → List (List WikiCategoryMember) × Nat
  | [] => ([], 0)
  | y :: ys =>
      let call := fetchFilmsForYearModel y (resp y)
      let rest := runFilmsForYears resp ys
      (call.1 :: rest.1, call.2 + rest.2)

/-- The three terminating events of one image load: `load` and `error`
from the `Image` element, or expiry of the fixed timeout — the input of
the model is whichever fires first. -/
inductive ImgEvent where
  | load
  | error
  | timeout
deriving DecidableEq

/-- The fixed timeout installed by `preloadImage`
(`setTimeout(..., 5000)`). -/
def preloadTimeoutMs : Nat := 5000

/-- Rejection message of the `preloadImage` timeout. -/
def errImageTimeout : String := "Image load timeout"

/-- Rejection reason of `img.onerror`. -/
def errImageLoad : String := "image load error"

/-- `preloadImage`: the returned promise resolves (`ok`) on `img.onload`;
`img.onerror` and the `preloadTimeoutMs` timeout both reject it. -/
def preloadImage : ImgEvent → Except String Unit
  | ImgEvent.load => Except.ok ()
  | ImgEvent.error => Except.error errImageLoad
  | ImgEvent.timeout => Except.error errImageTimeout

/-- The caller-side `preloadImage(...).catch(err => console.warn(...))`
wrapper used in `fetchArticles` and `fetchRandomFilmsWithFilter`:
rejection is converted into a resolved promise. -/
def preloadImageCaught (e : ImgEvent) : Except String Unit :=
  match preloadImage e with
  | Except.ok _ => Except.ok ()
  | Except.error _ => Except.ok ()

/-- Modelled from the words of the spec, for comparison with `isFilmPage`
(claim C8): film-related iff any of the three fields (category titles,
page title, extract) contains any of the five keywords. -/
def isFilmPageSpec (page : WikiPage) : Bool :=
  [kwFilm, kwMovie, kwCinema, kwDirectedBy, kwStarring].any (fun kw =>
    (match page.categories with
     | some cats => cats.any (fun cat => strIncludesLower cat.title kw)
     | none => false)
    || strIncludesLower page.title kw
    || optIncludesLower page.extract kw)

/-! ### Concrete test data for witnesses and counterexamples -/

/-- An extract just over the 100-character acceptance threshold. -/
def extract101 : String := String.mk (List.replicate 101 'x')

def imgUrl : String := "https://example.org/poster.jpg"

def pageUrl : String := "https://example.org/wiki/page"

def langEn : String := "en"

def thumbOk : WikiThumbnail := { source := imgUrl, width := 800, height := 600 }

def filmTitle1 : String := "First Film"

def filmTitle2 : String := "Second Film"

def filmTitle3 : String := "Third Film"

/-- A detail page passing the acceptance filter. -/
def pageFilm1 : WikiPage :=
  { pageid := 1, ns := 0, title := filmTitle1
    extract := some extract101, thumbnail := some thumbOk
    canonicalurl := some pageUrl, varianttitles := none, categories := none }

def pageFilm2 : WikiPage := { pageFilm1 with pageid := 2, title := filmTitle2 }

def pageFilm3 : WikiPage := { pageFilm1 with pageid := 3, title := filmTitle3 }

def essayTitle : String := "An Essay"

def essayExtract : String := "It is about cinema."

/-- A page whose only film signal is the word "cinema" in its extract:
the symmetric keyword rule of the spec classifies it as film-related,
the heuristic of the source does not (the extract is never tested against
"cinema"). -/
def pageCinemaEssay : WikiPage :=
  { pageid := 7, ns := 0, title := essayTitle
    extract := some essayExtract, thumbnail := none
    canonicalurl := none, varianttitles := none, categories := none }

/-- The session-start hook state. -/
def initialState : HookState := { articles := [], buffer := [], loading := false }

/-- An environment in which all five sampled year queries return zero
candidates and the fallback query succeeds with the given pages. -/
def fallbackEnv (langId : String) (pages : List WikiPage) : FetchEnv :=
  { langId := langId, yearFor := fun _ => [], detailOk := true
    detailPages := [], fallbackOk := true, fallbackPages := pages }

/-- The fallback environment delivering the three concrete film pages. -/
def envFallback3 : FetchEnv :=
  fallbackEnv langEn [pageFilm1, pageFilm2, pageFilm3]

/-! ### Helper lemmas on deduplication and merging -/

theorem contains_eq_decide_mem (l : List String) (a : String) :
    l.contains a = decide (a ∈ l) := by
  simp [List.elem_iff]

theorem mem_dedupAux : ∀ (l : List WikiArticle) (seen : List String) (a : WikiArticle),
    a ∈ dedupAux seen l → a ∈ l ∧ a.pageid ∉ seen
  | [], _seen, a, h => by simp [dedupAux] at h
  | b :: rest, seen, a, h => by
    by_cases hc : seen.contains b.pageid = true
    · rw [dedupAux, if_pos hc] at h
      have h' := mem_dedupAux rest seen a h
      exact ⟨List.mem_cons_of_mem _ h'.1, h'.2⟩
    · rw [dedupAux, if_neg hc] at h
      rcases List.mem_cons.mp h with rfl | h
      · refine ⟨List.mem_cons_self _ _, fun hmem => ?_⟩
        exact hc (by simpa [contains_eq_decide_mem] using hmem)
      · have h' := mem_dedupAux rest (b.pageid :: seen) a h
        exact ⟨List.mem_cons_of_mem _ h'.1,
          fun hm => h'.2 (List.mem_cons_of_mem _ hm)⟩

theorem dedupAux_sublist : ∀ (l : List WikiArticle) (seen : List String),
    List.Sublist (dedupAux seen l) l
  | [], _seen => by simp [dedupAux]
  | b :: rest, seen => by
    by_cases hc : seen.contains b.pageid = true
    · rw [dedupAux, if_pos hc]
      exact (dedupAux_sublist rest seen).cons b
    · rw [dedupAux, if_neg hc]
      exact (dedupAux_sublist rest (b.pageid :: seen)).cons₂ b

theorem dedupAux_map_nodup : ∀ (l : List WikiArticle) (seen : List String),
    ((dedupAux seen l).map (fun a => a.pageid)).Nodup
  | [], _seen => by simp [dedupAux]
  | b :: rest, seen => by
    by_cases hc : seen.contains b.pageid = true
    · rw [dedupAux, if_pos hc]
      exact dedupAux_map_nodup rest seen
    · rw [dedupAux, if_neg hc]
      refine List.nodup_cons.mpr ⟨fun hmem => ?_, dedupAux_map_nodup rest _⟩
      rcases List.mem_map.mp hmem with ⟨x, hx, hpid⟩
      exact (mem_dedupAux rest (b.pageid :: seen) x hx).2
        (hpid ▸ List.mem_cons_self _ _)

theorem dedupAux_eq_self : ∀ (l : List WikiArticle) (seen : List String),
    (∀ a ∈ l, a.pageid ∉ seen) → ((l.map (fun a => a.pageid)).Nodup) →
    dedupAux seen l = l
  | [], _seen, _h, _hn => by simp [dedupAux]
  | b :: rest, seen, h, hn => by
    have hbseen : b.pageid ∉ seen := h b (List.mem_cons_self _ _)
    have hc : ¬(seen.contains b.pageid = true) := fun hcc =>
      hbseen (by simpa [contains_eq_decide_mem] using hcc)
    rw [dedupAux, if_neg hc]
    congr 1
    apply dedupAux_eq_self rest (b.pageid :: seen)
    · intro a ha
      rcases List.nodup_cons.mp hn with ⟨hb, _⟩
      intro hmem
      rcases List.mem_cons.mp hmem with heq | hmem'
      · refine hb ?_
        show b.pageid ∈ List.map (fun a => a.pageid) rest
        rw [← heq]
        exact List.mem_map_of_mem (fun a => a.pageid) ha
      · exact h a (List.mem_cons_of_mem _ ha) hmem'
    · exact (List.nodup_cons.mp hn).2

theorem mem_map_dedupAux : ∀ (l : List WikiArticle) (seen : List String) (pid : String),
    pid ∈ (dedupAux seen l).map (fun a => a.pageid) ↔
      (pid ∈ l.map (fun a => a.pageid) ∧ pid ∉ seen)
  | [], _seen, _pid => by simp [dedupAux]
  | b :: rest, seen, pid => by
    by_cases hc : seen.contains b.pageid = true
    · have hbseen : b.pageid ∈ seen := by
        simpa [contains_eq_decide_mem] using hc
      rw [dedupAux, if_pos hc]
      rw [mem_map_dedupAux rest seen pid]
      -- the `pid = b.pageid` branch is impossible together with `pid ∉ seen`
      by_cases hpid : pid = b.pageid
      · subst hpid
        simp [hbseen]
      · simp [hpid]
    · have hbseen : b.pageid ∉ seen := by
        simpa [contains_eq_decide_mem] using hc
      rw [dedupAux, if_neg hc]
      simp only [List.map_cons, List.mem_cons]
      rw [mem_map_dedupAux rest (b.pageid :: seen) pid]
      by_cases hpid : pid = b.pageid
      · subst hpid
        simp [hbseen]
      · simp [hpid]

theorem mem_deduplicateArticles {a : WikiArticle} {l : List WikiArticle} :
    a ∈ deduplicateArticles l → a ∈ l :=
  fun h => (mem_dedupAux l [] a h).1

theorem mem_mergeUniqueArticles {a : WikiArticle} {A B : List WikiArticle} :
    a ∈ mergeUniqueArticles A B → a ∈ A ∨ a ∈ B := by
  unfold mergeUniqueArticles
  intro h
  rcases List.mem_append.mp h with h | h
  · exact Or.inl h
  · exact Or.inr (List.mem_of_mem_filter h)

/-- C2: `mergeUniqueArticles A B` starts with `A` unchanged (its prefix of
length `A.length` is `A`), and the remainder is exactly the elements of
`B` whose pageid is absent from the pageids of `A`, kept in the original
relative order of `B` (the remainder is a sublist of `B`). -/
theorem mergeUniqueArticles_extends (A B : List WikiArticle) :
    (mergeUniqueArticles A B).take A.length = A ∧
    (mergeUniqueArticles A B).drop A.length
      = B.filter (fun b => decide (b.pageid ∉ A.map (fun a => a.pageid))) ∧
    List.Sublist ((mergeUniqueArticles A B).drop A.length) B := by
  have hm : mergeUniqueArticles A B
      = A ++ B.filter (fun b => decide (b.pageid ∉ A.map (fun a => a.pageid))) := by
    show A ++ B.filter
        (fun article => !((A.map (fun article => article.pageid)).contains article.pageid))
      = A ++ B.filter (fun b => decide (b.pageid ∉ A.map (fun a => a.pageid)))
    congr 1
    apply List.filter_congr
    intro b _
    by_cases hmem : b.pageid ∈ A.map (fun a => a.pageid)
    · simp [contains_eq_decide_mem, hmem]
    · simp [contains_eq_decide_mem, hmem]
  refine ⟨?_, ?_, ?_⟩
  · rw [hm]
    exact List.take_left _ _
  · rw [hm]
    exact List.drop_left _ _
  · rw [hm, List.drop_left]
    exact List.filter_sublist B

/-- C3: deduplication is idempotent; moreover `deduplicateArticles L` is a
sublist of `L` (first-seen order, no reordering), its pageids are pairwise
distinct, and it retains exactly the pageids of `L`. -/
theorem deduplicateArticles_idempotent (L : List WikiArticle) :
    deduplicateArticles (deduplicateArticles L) = deduplicateArticles L ∧
    List.Sublist (deduplicateArticles L) L ∧
    ((deduplicateArticles L).map (fun a => a.pageid)).Nodup ∧
    (∀ pid, pid ∈ (deduplicateArticles L).map (fun a => a.pageid) ↔
      pid ∈ L.map (fun a => a.pageid)) := by
  refine ⟨?_, dedupAux_sublist L [], dedupAux_map_nodup L [], ?_⟩
  · unfold deduplicateArticles
    apply dedupAux_eq_self
    · intro a _
      simp
    · exact dedupAux_map_nodup L []
  · intro pid
    rw [show deduplicateArticles L = dedupAux [] L from rfl, mem_map_dedupAux]
    simp

/-! ### The acceptance filter (claim C1) -/

theorem dedup_merge_preserves {P : WikiArticle → Prop} {A B : List WikiArticle}
    (hA : ∀ a ∈ A, P a) (hB : ∀ a ∈ B, P a) :
    ∀ a ∈ deduplicateArticles (mergeUniqueArticles A B), P a := by
  intro a ha
  rcases mem_mergeUniqueArticles (mem_deduplicateArticles ha) with h | h
  · exact hA a h
  · exact hB a h

theorem acceptedArticle_of_acceptPage {pg : WikiPage} (langId : String)
    (h : acceptPage pg = true) : acceptedArticle (pageToArticle langId pg) := by
  unfold acceptPage at h
  rcases hth : pg.thumbnail with _ | t <;> rw [hth] at h
  · simp at h
  rcases hcu : pg.canonicalurl with _ | u <;> rw [hcu] at h
  · simp [strTruthy] at h
  rcases hex : pg.extract with _ | e <;> rw [hex] at h
  · simp [strTruthy] at h
  simp only [strTruthy, Bool.and_eq_true, Bool.not_eq_true', beq_eq_false_iff_ne,
    Option.getD_some, decide_eq_true_eq] at h
  unfold acceptedArticle pageToArticle
  simp only [hth, hcu, hex, Option.getD_some]
  exact ⟨h.1.1.1, h.1.1.2, h.2⟩

theorem acceptedArticle_film_iff (langId : String) (pg : WikiPage) :
    acceptedArticle (pageToFilmArticle langId pg) ↔
    acceptedArticle (pageToArticle langId pg) := Iff.rfl

theorem acceptedArticle_of_mem_primaryBatch {langId : String}
    {pages : List WikiPage} {a : WikiArticle}
    (h : a ∈ primaryBatch langId pages) : acceptedArticle a := by
  unfold primaryBatch at h
  rcases List.mem_map.mp (mem_deduplicateArticles h) with ⟨pg, hpg, rfl⟩
  exact acceptedArticle_of_acceptPage langId (List.of_mem_filter hpg)

theorem acceptedArticle_of_mem_fallbackBatch {langId : String}
    {pages : List WikiPage} {a : WikiArticle}
    (h : a ∈ fallbackBatch langId pages) : acceptedArticle a := by
  unfold fallbackBatch at h
  have h2 := List.mem_of_mem_take (mem_deduplicateArticles h)
  rcases List.mem_map.mp h2 with ⟨pg, hpg, rfl⟩
  have hfa := List.of_mem_filter hpg
  simp only [fallbackAccept, Bool.and_eq_true] at hfa
  have hacc : acceptPage pg = true := hfa.2
  exact (acceptedArticle_film_iff langId pg).mpr
    (acceptedArticle_of_acceptPage langId hacc)

theorem fallback_preserves_accepted (forBuffer : Bool) (env : FetchEnv) (s : HookState)
    (hA : ∀ a ∈ s.articles, acceptedArticle a)
    (hB : ∀ a ∈ s.buffer, acceptedArticle a) :
    (∀ a ∈ (fetchRandomFilmsWithFilter forBuffer env s).1.articles, acceptedArticle a) ∧
    (∀ a ∈ (fetchRandomFilmsWithFilter forBuffer env s).1.buffer, acceptedArticle a) := by
  unfold fetchRandomFilmsWithFilter
  cases hok : env.fallbackOk
  · simpa using ⟨hA, hB⟩
  · cases forBuffer
    · simp only [if_true, Bool.false_eq_true, if_false]
      exact ⟨dedup_merge_preserves hA (fun a h => acceptedArticle_of_mem_fallbackBatch h), hB⟩
    · simp only [if_true]
      exact ⟨hA, dedup_merge_preserves hB (fun a h => acceptedArticle_of_mem_fallbackBatch h)⟩

/-- C1: every article in the batch produced by the primary detail query
(`primaryBatch`) or the fallback query (`fallbackBatch`) has a thumbnail
source URL, a canonical URL, and an extract longer than 100 characters;
consequently, starting from a state whose visible list and buffer contain
only such articles, every article visible or buffered after a
`fetchArticles` run still satisfies the property — an article failing it
is never in a batch and never merged. -/
theorem acceptance_filter_invariant (env : FetchEnv) (forBuffer : Bool) (s : HookState)
    (hA : ∀ a ∈ s.articles, acceptedArticle a)
    (hB : ∀ a ∈ s.buffer, acceptedArticle a) :
    (∀ a ∈ primaryBatch env.langId env.detailPages, acceptedArticle a) ∧
    (∀ a ∈ fallbackBatch env.langId env.fallbackPages, acceptedArticle a) ∧
    (∀ a ∈ (fetchArticles forBuffer env s).1.articles, acceptedArticle a) ∧
    (∀ a ∈ (fetchArticles forBuffer env s).1.buffer, acceptedArticle a) := by
  refine ⟨fun a h => acceptedArticle_of_mem_primaryBatch h,
          fun a h => acceptedArticle_of_mem_fallbackBatch h, ?_⟩
  unfold fetchArticles
  by_cases hguard : (s.loading && !forBuffer) = true
  · simp only [hguard, if_true]
    exact ⟨hA, hB⟩
  · simp only [hguard, Bool.false_eq_true, if_false]
    by_cases hempty :
        ((((List.finRange 5).map env.yearFor).flatten).length == 0) = true
    · cases forBuffer
      · simp only [hempty, if_true, Bool.not_false, Bool.false_eq_true, if_false]
        exact fallback_preserves_accepted false env { s with loading := true } hA hB
      · simp only [hempty, if_true, Bool.not_true, Bool.false_eq_true, if_false]
        exact fallback_preserves_accepted true env s hA hB
    · by_cases hdet : (!env.detailOk) = true
      · cases forBuffer
        · simp only [hempty, hdet, if_true, Bool.not_false, Bool.false_eq_true, if_false]
          exact fallback_preserves_accepted false env { s with loading := true } hA hB
        · simp only [hempty, hdet, if_true, Bool.not_true, Bool.false_eq_true, if_false]
          exact fallback_preserves_accepted true env s hA hB
      · cases forBuffer
        · simp only [hempty, hdet, Bool.not_false, Bool.false_eq_true, if_false, if_true]
          exact ⟨dedup_merge_preserves hA
              (fun a h => acceptedArticle_of_mem_primaryBatch h), hB⟩
        · simp only [hempty, hdet, Bool.not_true, Bool.false_eq_true, if_false, if_true]
          exact ⟨hA, dedup_merge_preserves hB
              (fun a h => acceptedArticle_of_mem_primaryBatch h)⟩

/-- Witness for C1 at a concrete input: the empty start state and an
environment whose detail and fallback responses are the three concrete
film pages. -/
theorem acceptance_filter_invariant_witness :
    (∀ a ∈ initialState.articles, acceptedArticle a) ∧
    (∀ a ∈ initialState.buffer, acceptedArticle a) ∧
    ((∀ a ∈ primaryBatch envFallback3.langId envFallback3.detailPages, acceptedArticle a) ∧
     (∀ a ∈ fallbackBatch envFallback3.langId envFallback3.fallbackPages, acceptedArticle a) ∧
     (∀ a ∈ (fetchArticles false envFallback3 initialState).1.articles, acceptedArticle a) ∧
     (∀ a ∈ (fetchArticles false envFallback3 initialState).1.buffer, acceptedArticle a)) :=
  ⟨by simp [initialState], by simp [initialState],
   acceptance_filter_invariant envFallback3 false initialState
     (by simp [initialState]) (by simp [initialState])⟩

/-- C10: a buffer-targeted run `fetchArticles true` — including its
fallback continuation `fetchRandomFilmsWithFilter true` — never writes
the visible articles list and never sets or clears the loading flag;
only the read-ahead buffer may change. -/
theorem buffer_fetch_frame (env : FetchEnv) (s : HookState) :
    ((fetchArticles true env s).1.articles = s.articles ∧
     (fetchArticles true env s).1.loading = s.loading) ∧
    ((fetchRandomFilmsWithFilter true env s).1.articles = s.articles ∧
     (fetchRandomFilmsWithFilter true env s).1.loading = s.loading) := by
  have hfb : (fetchRandomFilmsWithFilter true env s).1.articles = s.articles ∧
      (fetchRandomFilmsWithFilter true env s).1.loading = s.loading := by
    unfold fetchRandomFilmsWithFilter
    cases hok : env.fallbackOk
    · simp [hok]
    · simp [hok]
  refine ⟨?_, hfb⟩
  unfold fetchArticles
  simp only [Bool.not_true, Bool.and_false, Bool.false_eq_true, if_false]
  by_cases hempty : ((((List.finRange 5).map env.yearFor).flatten).length == 0) = true
  · simp only [hempty, if_true, Bool.not_true, Bool.false_eq_true, if_false]
    exact hfb
  · by_cases hdet : (!env.detailOk) = true
    · simp only [hempty, hdet, Bool.false_eq_true, if_false, if_true, Bool.not_true]
      exact hfb
    · simp only [hempty, hdet, Bool.false_eq_true, if_false, if_true, Bool.not_true]
      exact ⟨trivial, trivial⟩

/-! ### Rate limiting (claim C5) -/

/-- C5 (counterexample): the code keeps no rate-limit timestamp, so two
user-initiated `getMoreArticles` calls run back-to-back — hence issued
within any positive cooldown window — are both full fetches: each makes
6 network attempts (5 category queries + 1 fallback query); the second
is not rejected as a no-op. -/
theorem rate_limit_counterexample :
    networkAttempts (getMoreArticles envFallback3 initialState).2 = 6 ∧
    networkAttempts
      (getMoreArticles envFallback3
        (getMoreArticles envFallback3 initialState).1).2 = 6 := by
  exact ⟨rfl, rfl⟩

/-- C5 (amended): the only throttle on user-initiated fetches is the
loading flag: a user-initiated `fetchArticles` issued while `loading` is
still `true` is a no-op — state unchanged and no network request. The
hook stores no timestamp, so once `loading` is `false` again a new
user-initiated call proceeds regardless of elapsed time. -/
theorem loading_guard_no_op (env : FetchEnv) (s : HookState)
    (h : s.loading = true) :
    fetchArticles false env s = (s, emptyLog) := by
  unfold fetchArticles
  simp [h]

/-- Witness for the amended C5 at a concrete loading state. -/
theorem loading_guard_no_op_witness :
    ({ articles := [], buffer := [], loading := true } : HookState).loading = true ∧
    fetchArticles false envFallback3 { articles := [], buffer := [], loading := true }
      = ({ articles := [], buffer := [], loading := true }, emptyLog) :=
  ⟨rfl, loading_guard_no_op envFallback3 _ rfl⟩

/-! ### Per-year cache (claim C6) -/

/-- C6 (counterexample): `fetchFilmsForYear` caches nothing — a session
of two calls with the same year 2000 issues two category queries where
the claim demands exactly one. -/
theorem year_cache_counterexample :
    (runFilmsForYears (fun _ => some []) [2000, 2000]).2 = 2 ∧
    (fetchFilmsForYearModel 2000 (some [])).2 = 1 :=
  ⟨rfl, rfl⟩

/-- C6 (amended): every `fetchFilmsForYear` call issues exactly one
category network query — there is no per-year cache, so a session of n
calls issues n queries, repeated years included. -/
theorem year_query_per_call (resp : Nat → Option (List WikiCategoryMember))
    (years : List Nat) :
    (runFilmsForYears resp years).2 = years.length := by
  induction years with
  | nil => rfl
  | cons y ys ih =>
      simp only [runFilmsForYears, fetchFilmsForYearModel, ih, List.length_cons]
      omega

/-! ### Image preloader (claim C7) -/

/-- C7 (counterexample): the promise returned by `preloadImage` does not
always resolve: on a load error it rejects, and on expiry of the
timeout it rejects with "Image load timeout". -/
theorem preload_reject_counterexample :
    preloadImage ImgEvent.error ≠ Except.ok () ∧
    preloadImage ImgEvent.timeout ≠ Except.ok () ∧
    preloadImage ImgEvent.timeout = Except.error errImageTimeout := by
  refine ⟨?_, ?_, rfl⟩ <;> simp [preloadImage]

/-- C7 (amended): `preloadImage` resolves exactly on successful load and
rejects on load error or on expiry of the fixed timeout, whichever event
fires first; the `.catch` wrapper in the orchestrator turns every outcome into
a resolved promise, so preloading never fails the acquisition flow. -/
theorem preloadImage_contract :
    (∀ e : ImgEvent, preloadImage e = Except.ok () ↔ e = ImgEvent.load) ∧
    (∀ e : ImgEvent, preloadImageCaught e = Except.ok ()) := by
  constructor <;> intro e <;> cases e <;> simp [preloadImage, preloadImageCaught]

/-! ### Film-keyword heuristic (claim C8) -/

/-- C8 (counterexample): `pageCinemaEssay` (extract "It is about
cinema.", no categories, title without keywords) is film-related under
the symmetric rule of the claim — every field tested against all five
keywords — but not under the heuristic of the source, because the extract is
never tested against "cinema". -/
theorem film_heuristic_counterexample :
    isFilmPage pageCinemaEssay = false ∧
    isFilmPageSpec pageCinemaEssay = true := by
  exact ⟨rfl, rfl⟩

/-- C8 (amended): the classification is asymmetric: a page is classified
film-related iff some category title contains "film", "movie" or
"cinema", or the page title contains "film", or the extract contains
"film", "movie", "directed by" or "starring" (case-insensitively). The
page title is not tested against the other four keywords, and the
extract is not tested against "cinema". -/
theorem isFilmPage_characterization (page : WikiPage) :
    isFilmPage page = true ↔
      ((∃ cats, page.categories = some cats ∧ ∃ cat ∈ cats,
          (strIncludesLower cat.title kwFilm = true ∨
           strIncludesLower cat.title kwMovie = true ∨
           strIncludesLower cat.title kwCinema = true)) ∨
       strIncludesLower page.title kwFilm = true ∨
       (∃ e, page.extract = some e ∧
         (strIncludesLower e kwFilm = true ∨
          strIncludesLower e kwMovie = true ∨
          strIncludesLower e kwDirectedBy = true ∨
          strIncludesLower e kwStarring = true))) := by
  unfold isFilmPage
  rcases hc : page.categories with _ | cats <;>
    rcases he : page.extract with _ | e <;>
      simp [optIncludesLower, List.any_eq_true, Bool.or_eq_true, or_assoc]

/-- Witness for the amended C8: the heuristic accepts `pageFilm1`
(title contains "film"), matching the characterization. -/
theorem isFilmPage_characterization_witness :
    isFilmPage pageFilm1 = true := by
  rw [isFilmPage_characterization pageFilm1]
  right
  left
  rfl

/-! ### Empty-primary fallback scenario (claim C9) -/

/-- C9: when all five sampled year queries return zero candidates and
the fallback response yields exactly the three pages `p1 p2 p3` — each
passing the film heuristic and the acceptance filter, with pairwise
distinct pageids — a user-initiated acquisition from the empty state
invokes the fallback exactly once, and the visible list afterwards
contains exactly those three articles with no duplicate pageids. -/
theorem empty_primary_fallback_scenario
    (langId : String) (p1 p2 p3 : WikiPage)
    (h1 : fallbackAccept p1 = true) (h2 : fallbackAccept p2 = true)
    (h3 : fallbackAccept p3 = true)
    (h12 : toString p1.pageid ≠ toString p2.pageid)
    (h13 : toString p1.pageid ≠ toString p3.pageid)
    (h23 : toString p2.pageid ≠ toString p3.pageid) :
    (fetchArticles false (fallbackEnv langId [p1, p2, p3]) initialState).2.fallbackCalls
        = 1 ∧
    (fetchArticles false (fallbackEnv langId [p1, p2, p3]) initialState).1.articles
        = [pageToFilmArticle langId p1, pageToFilmArticle langId p2,
           pageToFilmArticle langId p3] ∧
    ((fetchArticles false (fallbackEnv langId [p1, p2, p3]) initialState).1.articles.map
        (fun a => a.pageid)).Nodup := by
  have e21 : (toString p2.pageid == toString p1.pageid) = false :=
    beq_eq_false_iff_ne.mpr (Ne.symm h12)
  have e31 : (toString p3.pageid == toString p1.pageid) = false :=
    beq_eq_false_iff_ne.mpr (Ne.symm h13)
  have e32 : (toString p3.pageid == toString p2.pageid) = false :=
    beq_eq_false_iff_ne.mpr (Ne.symm h23)
  have hpid1 : (pageToFilmArticle langId p1).pageid = toString p1.pageid := rfl
  have hpid2 : (pageToFilmArticle langId p2).pageid = toString p2.pageid := rfl
  have hpid3 : (pageToFilmArticle langId p3).pageid = toString p3.pageid := rfl
  have hbatch : fallbackBatch langId [p1, p2, p3]
      = [pageToFilmArticle langId p1, pageToFilmArticle langId p2,
         pageToFilmArticle langId p3] := by
    unfold fallbackBatch deduplicateArticles
    simp only [List.filter, h1, h2, h3, List.map, List.take]
    simp only [dedupAux, List.contains, List.elem, hpid1, hpid2, hpid3, e21, e31, e32]
    rfl
  unfold fetchArticles fetchRandomFilmsWithFilter
  simp only [fallbackEnv, initialState, Bool.not_false, Bool.and_true, if_true,
    if_false, Bool.false_eq_true]
  simp only [show ((((List.finRange 5).map
      (fun _ : Fin 5 => ([] : List WikiCategoryMember))).flatten).length == 0) = true
    from rfl, if_true]
  simp only [hbatch]
  refine ⟨by trivial, ?_, ?_⟩
  · show deduplicateArticles (mergeUniqueArticles [] _) = _
    unfold mergeUniqueArticles deduplicateArticles
    simp only [List.map, List.filter, List.contains, List.elem, List.nil_append]
    simp only [dedupAux, List.contains, List.elem, hpid1, hpid2, hpid3, e21, e31, e32]
    rfl
  · show (List.map _ (deduplicateArticles (mergeUniqueArticles [] _))).Nodup
    exact dedupAux_map_nodup _ []

/-- Witness for C9: the three concrete film pages. -/
theorem empty_primary_fallback_scenario_witness :
    (fallbackAccept pageFilm1 = true ∧ fallbackAccept pageFilm2 = true ∧
     fallbackAccept pageFilm3 = true ∧
     toString pageFilm1.pageid ≠ toString pageFilm2.pageid ∧
     toString pageFilm1.pageid ≠ toString pageFilm3.pageid ∧
     toString pageFilm2.pageid ≠ toString pageFilm3.pageid) ∧
    ((fetchArticles false envFallback3 initialState).2.fallbackCalls = 1 ∧
     (fetchArticles false envFallback3 initialState).1.articles
        = [pageToFilmArticle langEn pageFilm1, pageToFilmArticle langEn pageFilm2,
           pageToFilmArticle langEn pageFilm3] ∧
     ((fetchArticles false envFallback3 initialState).1.articles.map
        (fun a => a.pageid)).Nodup) :=
  ⟨⟨by decide, by decide, by decide, by decide, by decide, by decide⟩,
   empty_primary_fallback_scenario langEn pageFilm1 pageFilm2 pageFilm3
     (by decide) (by decide) (by decide) (by decide) (by decide) (by decide)⟩

/-! ### Year-sampler skew (claim C4) -/

/-- C4 (refutation): with the draw uniform on [0,1) and
currentYear = 2026, the measure of draws whose output year lies strictly
above the midpoint (1929 + 2026)/2 = 1977.5 of the range is below one
half — it is at most 1/4. `Math.pow(random, 0.5)` concentrates the
shaped draw near 1, so most outputs fall in the older half: the sampler
does not prefer recent years, contradicting the claim and the comment in
the source ("preference for recent years"). A typical draw r = 1/4
already lands at 1977, below the midpoint. -/
theorem getWeightedFilmYear_not_recent_biased :
    MeasureTheory.volume
      {r : ℝ | r ∈ Set.Ico (0:ℝ) 1 ∧
        ((1929 + 2026 : ℝ)/2) < ((getWeightedFilmYear 2026 r : ℤ) : ℝ)} < 1/2 ∧
    getWeightedFilmYear 2026 (1/4) = 1977 := by
  constructor
  · have hsub : {r : ℝ | r ∈ Set.Ico (0:ℝ) 1 ∧
        ((1929 + 2026 : ℝ)/2) < ((getWeightedFilmYear 2026 r : ℤ) : ℝ)}
        ⊆ Set.Ico (0:ℝ) (1/4) := by
      rintro r ⟨⟨hr0, _hr1⟩, hmid⟩
      have hfl : ((getWeightedFilmYear 2026 r : ℤ) : ℝ)
          ≤ (2026 : ℝ) - Real.sqrt r * ((2026 : ℝ) - 1929) :=
        Int.floor_le _
      have hlt : Real.sqrt r * 97 < 48.5 := by
        have hchain : ((1929 + 2026 : ℝ)/2)
            < (2026 : ℝ) - Real.sqrt r * ((2026:ℝ) - 1929) :=
          lt_of_lt_of_le hmid hfl
        norm_num at hchain ⊢
        linarith
      have hs : Real.sqrt r < 1/2 := by nlinarith [Real.sqrt_nonneg r]
      have hr : r < 1/4 := by
        have h1 : Real.sqrt r * Real.sqrt r = r := Real.mul_self_sqrt hr0
        nlinarith [Real.sqrt_nonneg r]
      exact ⟨hr0, hr⟩
    calc MeasureTheory.volume {r : ℝ | r ∈ Set.Ico (0:ℝ) 1 ∧
          ((1929 + 2026 : ℝ)/2) < ((getWeightedFilmYear 2026 r : ℤ) : ℝ)}
        ≤ MeasureTheory.volume (Set.Ico (0:ℝ) (1/4)) :=
          MeasureTheory.measure_mono hsub
      _ = ENNReal.ofReal (1/4 - 0) := Real.volume_Ico
      _ < 1/2 := by
          rw [show ((1/2 : ENNReal)) = ENNReal.ofReal (1/2) by
            rw [ENNReal.ofReal_div_of_pos (by norm_num), ENNReal.ofReal_one,
              ENNReal.ofReal_ofNat]]
          apply (ENNReal.ofReal_lt_ofReal_iff (by norm_num)).mpr
          norm_num
  · unfold getWeightedFilmYear
    rw [show ((1:ℝ)/4) = (1/2)^2 by norm_num, Real.sqrt_sq (by norm_num)]
    rw [Int.floor_eq_iff]
    constructor <;> norm_num

end WikiPlot
